import Mathlib

/-!
Verification of the spatial habitat-estimation and overlap-analysis engine
(`app/spatial_analysis.py` and its callers in `app/endpoints/habitats.py` and
`app/endpoints/analysis.py`).

The Python module computes over Shapely geometries and NumPy arrays.  The
embedding below keeps the module's own control flow and arithmetic exact
(coordinates, areas and densities are rationals), while the geometric and
numerical primitives supplied by third-party libraries (Shapely polygon
operations, `scipy.stats.gaussian_kde` plus matplotlib contour tracing, and the
floating-point square root) are abstracted as the fields of a `GeomLib`
structure and a `KdeCore` function.  Theorems that depend on a property of
such a primitive take that property as an explicit hypothesis, and a small
executable instance (`toyGeom`, `toyCore`) discharges those hypotheses on
concrete inputs.
-/

/-- A point `(longitude, latitude)` in decimal degrees (`List[Tuple[float,
float]]` / an `(n, 2)` NumPy array in the source). -/
abbrev Pt : Type := ℚ × ℚ

/-- One `{lat, lng, density}` entry of the diagnostic `grid_points` list built
by `calculate_kde`. -/
structure GridPoint where
  lat : ℚ
  lng : ℚ
  density : ℚ
deriving DecidableEq

/-- The geometry and numeric primitives the Python module takes from Shapely
and NumPy, abstracted over the geometry representation `G`:

* `convexHull ps` — `MultiPoint(ps).convex_hull`;
* `isPolygon g` — `isinstance(g, shapely.Polygon)`;
* `isSimple g` — the geometry is simple (non-self-intersecting);
* `isValid g` — Shapely `g.is_valid`;
* `area g` — Shapely `g.area` (planar, in squared degrees);
* `mkPolygon seg` — `shapely.Polygon(seg)` from a traced contour segment;
* `buffer0 g` — `g.buffer(0)`, the zero-width-buffer validity repair;
* `unionAll l` — `shapely.ops.unary_union(l)`;
* `isEmpty g` — Shapely `g.is_empty`;
* `wkt g` — `g.wkt` serialization;
* `parseWKT s` — `shapely.wkt.loads(s)`, `none` when loading raises;
* `interArea g1 g2` / `unionArea g1 g2` — `g1.intersection(g2).area` and
  `g1.union(g2).area`;
* `sqrtQ q` — `numpy.sqrt(q)`, used only to turn squared Euclidean distances
  into distances before they are compared. -/
structure GeomLib (G : Type) where
  convexHull : List Pt → G
  isPolygon : G → Bool
  isSimple : G → Bool
  isValid : G → Bool
  area : G → ℚ
  mkPolygon : List Pt → G
  buffer0 : G → G
  unionAll : List G → G
  isEmpty : G → Bool
  wkt : G → String
  parseWKT : String → Option G
  interArea : G → G → ℚ
  unionArea : G → G → ℚ
  sqrtQ : ℚ → ℚ

/-- `numpy.mean(points_array, axis=0)`: the coordinate-wise mean. -/
def centroid (points : List Pt) : Pt :=
  (((points.map Prod.fst).sum) / (points.length : ℚ),
   ((points.map Prod.snd).sum) / (points.length : ℚ))

/-- The squared Euclidean distance `sum((a - b) ** 2)` between two points. -/
def sqDistance (a b : Pt) : ℚ :=
  (a.1 - b.1) ^ 2 + (a.2 - b.2) ^ 2

/-- `numpy.percentile(xs, p)` with the default linear interpolation: with the
values sorted ascending and `idx = (len(xs) - 1) * p / 100`, the result
interpolates between the floor and ceiling ranks of `idx`. -/
def percentile (xs : List ℚ) (p : ℚ) : ℚ :=
  let sorted := xs.insertionSort (fun a b => a ≤ b)
  let n := xs.length
  let idx : ℚ := ((n : ℚ) - 1) * p / 100
  let k : ℤ := Int.floor idx
  let frac : ℚ := idx - (k : ℚ)
  let lo := sorted.getD k.toNat 0
  let hi := sorted.getD (min (k.toNat + 1) (n - 1)) 0
  lo + frac * (hi - lo)

/-- The percentage-MCP trimming step of `calculate_mcp` (lines 47-56 of
`spatial_analysis.py`): distances of every point from the centroid (NumPy
computes `sqrt` of the squared distance), the `percentage`-th percentile of
those distances as threshold, and the mask `distances <= threshold`. -/
def mcpRetainedPoints {G : Type} (lib : GeomLib G) (points : List Pt) (p : ℚ) : List Pt :=
  let c := centroid points
  let distances := points.map (fun q => lib.sqrtQ (sqDistance q c))
  let threshold := percentile distances p
  points.filter (fun q => decide (lib.sqrtQ (sqDistance q c) ≤ threshold))

/-- Lines 66-72 of `spatial_analysis.py`: the convex hull of the (possibly
trimmed) point set, returned only when Shapely yields a `Polygon` instance
(`None` when the hull degenerates to a `Point` or `LineString`).  The Python
function serializes the polygon to WKT; the embedding returns the geometry
itself. -/
def hullPolygon {G : Type} (lib : GeomLib G) (points : List Pt) : Option G :=
  let mcp_polygon := lib.convexHull points
  if lib.isPolygon mcp_polygon = true then some mcp_polygon else none

/-- `calculate_mcp(points, parameters)` of `spatial_analysis.py`.  The
`parameters` dict is modelled by its only read key, `percentage`.  An
out-of-range percentage raises `ValueError` inside the `try` block, which is
caught and falls back to the full MCP (lines 44-45 and 62-64); fewer than 3
retained points return `None` from inside the `try` (lines 58-59). -/
def calculate_mcp {G : Type} (lib : GeomLib G) (points : List Pt)
    (percentage : Option ℚ) : Option G :=
  if points.length < 3 then none
  else
    match percentage with
    | none => hullPolygon lib points
    | some p =>
      if 0 < p ∧ p ≤ 100 then
        let filtered := mcpRetainedPoints lib points p
        if filtered.length < 3 then none
        else hullPolygon lib filtered
      else hullPolygon lib points

/-- Modelled from the spec: the trimmed-MCP algorithm as §4.1 states it —
centroid of all points, Euclidean distance of every point from the centroid in
degree-space, discard points beyond the `percentage`-th percentile distance,
require at least 3 retained points (else no result), then the convex hull of
the retained point set as a polygon (no result when the hull degenerates). -/
def mcpSpecPipeline {G : Type} (lib : GeomLib G) (points : List Pt) (p : ℚ) : Option G :=
  let retained := mcpRetainedPoints lib points p
  if retained.length < 3 then none
  else hullPolygon lib retained

/-- The output of the numerical KDE core for one invocation: the contour
segments `contour_set.allsegs[0]` traced at the density threshold, the
diagnostic grid samples with non-negligible density, and `max(z)`. -/
structure KdeCoreOut where
  segs : List (List Pt)
  gridSamples : List GridPoint
  maxDensity : ℚ

/-- The numerical pipeline of `calculate_kde` that lives entirely in
third-party code (lines 140-174 of `spatial_analysis.py`): padded grid,
`gaussian_kde` with the chosen bandwidth (`some h` for a user bandwidth,
`none` for Silverman's rule), density percentile threshold and matplotlib
contour tracing.  `none` models an exception (for example the `LinAlgError`
`gaussian_kde` raises on a singular covariance), which the surrounding
`try/except` of `calculate_kde` turns into `None`. -/
abbrev KdeCore : Type := List Pt → Option ℚ → ℚ → ℤ → Option KdeCoreOut

/-- One contour segment's processing (lines 177-197 of
`spatial_analysis.py`): segments of fewer than 3 vertices are skipped; a
valid polygon is kept when its area exceeds `1e-9`; an invalid one is
zero-buffered and kept only when the repair is valid with area over `1e-9`. -/
def processContourSegment {G : Type} (lib : GeomLib G) (seg : List Pt) : Option G :=
  if seg.length < 3 then none
  else
    let poly := lib.mkPolygon seg
    if lib.isValid poly = true then
      if (1 : ℚ) / 1000000000 < lib.area poly then some poly else none
    else
      let buffered := lib.buffer0 poly
      if lib.isValid buffered = true ∧ (1 : ℚ) / 1000000000 < lib.area buffered then
        some buffered
      else none

/-- The `valid_polygons` list of `calculate_kde`. -/
def validPolygonsOfSegments {G : Type} (lib : GeomLib G) (segs : List (List Pt)) : List G :=
  segs.filterMap (processContourSegment lib)

/-- The result dict of `calculate_kde`; `polygon_wkt` holds the geometry whose
WKT the Python function serializes. -/
structure KdeResult (G : Type) where
  polygon_wkt : G
  grid_points : List GridPoint
  max_density : ℚ
deriving DecidableEq

/-- The `try` block of `calculate_kde` (lines 139-233): run the numerical
core, bail out with `None` when no contour segment exists, when no segment
survives validation, or when the union is empty; otherwise assemble the result
dict (grid samples are included only for `grid_size <= 200`). -/
def kdeNumericalPipeline {G : Type} (lib : GeomLib G) (core : KdeCore)
    (points : List Pt) (bw : Option ℚ) (lp : ℚ) (gs : ℤ) : Option (KdeResult G) :=
  match core points bw lp gs with
  | none => none
  | some out =>
    if out.segs.isEmpty = true then none
    else
      let valid := validPolygonsOfSegments lib out.segs
      if valid.isEmpty = true then none
      else
        let final := lib.unionAll valid
        if lib.isEmpty final = true then none
        else
          some { polygon_wkt := final,
                 grid_points := if gs ≤ 200 then out.gridSamples else [],
                 max_density := out.maxDensity }

/-- Parameter validation of `calculate_kde` after the bandwidth check (lines
129-134): `level_percent` must be a number in `(0, 100]` and `grid_size` an
integer greater than 1 (`none` models a Python `None` argument, which fails
the `isinstance` check). -/
def kdeAfterBandwidth {G : Type} (lib : GeomLib G) (core : KdeCore)
    (points : List Pt) (bw : Option ℚ) (level_percent : Option ℚ)
    (grid_size : Option ℤ) : Option (KdeResult G) :=
  match level_percent with
  | none => none
  | some lp =>
    if ¬ (0 < lp ∧ lp ≤ 100) then none
    else
      match grid_size with
      | none => none
      | some gs =>
        if ¬ (1 < gs) then none
        else kdeNumericalPipeline lib core points bw lp gs

/-- `calculate_kde(points, h_degrees, level_percent, grid_size)` of
`spatial_analysis.py`.  Checks run in source order: fewer than 3 points →
`None` (line 113); a supplied non-positive `h_degrees` → `None` (lines
119-124, `none` means not supplied, i.e. Silverman's rule); then the
`level_percent` and `grid_size` validation and the numerical pipeline. -/
def calculate_kde {G : Type} (lib : GeomLib G) (core : KdeCore) (points : List Pt)
    (h_degrees : Option ℚ) (level_percent : Option ℚ) (grid_size : Option ℤ) :
    Option (KdeResult G) :=
  if points.length < 3 then none
  else
    match h_degrees with
    | some h =>
      if h ≤ 0 then none
      else kdeAfterBandwidth lib core points (some h) level_percent grid_size
    | none => kdeAfterBandwidth lib core points none level_percent grid_size

/-- The all-zero metrics dict `calculate_overlap` returns when either WKT is
missing or fails to parse (lines 271-277 of `spatial_analysis.py`). -/
def zeroOverlapMetrics : List (String × ℚ) :=
  [("intersection_area", 0), ("union_area", 0), ("overlap_index", 0)]

/-- `calculate_overlap(habitat1_wkt, habitat2_wkt)` of `spatial_analysis.py`.
The Python dict result is modelled as an association list so that the exact
key set is visible to callers.  An input of `none` models a missing (`None`)
polygon; a parse failure of `lib.parseWKT` models the `shapely.wkt.loads`
exception; either lands in the `except` branch returning the all-zero dict.
`overlap_index` is `intersection_area / union_area` when `union_area > 0`,
else `0`. -/
def calculate_overlap {G : Type} (lib : GeomLib G)
    (habitat1_wkt habitat2_wkt : Option String) : List (String × ℚ) :=
  match habitat1_wkt.bind lib.parseWKT, habitat2_wkt.bind lib.parseWKT with
  | some poly1, some poly2 =>
    let intersection_area := lib.interArea poly1 poly2
    let union_area := lib.unionArea poly1 poly2
    let overlap_index := if 0 < union_area then intersection_area / union_area else 0
    [("intersection_area", intersection_area),
     ("union_area", union_area),
     ("overlap_index", overlap_index)]
  | _, _ => zeroOverlapMetrics

/-- `schemas.AnalysisRequest` (lines 327-336 of `schemas.py`).  Dates are
modelled as integer day ordinals; `timedelta(days=d)` is addition of `d`.
The pydantic model declares no validator and no field constraint, so any
well-typed value is accepted; the declared defaults are `time_step_days = 7`,
`observation_window_days = 30`, `kde_h_meters = 10000`,
`kde_level_percent = 95`, `kde_grid_size = 100`. -/
structure AnalysisRequest where
  species1_id : ℤ
  species2_id : ℤ
  start_date : ℤ
  end_date : ℤ
  time_step_days : ℤ
  observation_window_days : ℤ
  kde_h_meters : Option ℚ
  kde_level_percent : Option ℚ
  kde_grid_size : Option ℤ
deriving DecidableEq

/-- Pydantic validation of an `AnalysisRequest`: the model has no validators
and no constrained fields, so every well-typed request is accepted. -/
def analysisRequestAccepted (_ : AnalysisRequest) : Bool :=
  true

/-- `schemas.OverlapTrendPoint`: one emitted point of the overlap trend. -/
structure OverlapTrendPoint where
  time : ℤ
  overlap_area : ℚ
  overlap_index : ℚ
deriving DecidableEq

/-- One iteration body of the `while` loop of `get_overlap_trend`
(`analysis.py` lines 75-114): fetch each species' points for the window
`[current_time - observation_window_days, current_time]`, run KDE on each set
of at least 3 points — passing only `level_percent` and `grid_size`, never a
bandwidth, so `h_degrees` keeps its `None` default — compute the overlap of
the two KDE polygons when both exist, and emit the trend point. -/
def overlapTrendStep {G : Type} (lib : GeomLib G) (core : KdeCore)
    (fetch : ℤ → ℤ → ℤ → List Pt) (r : AnalysisRequest) (current_time : ℤ) :
    OverlapTrendPoint :=
  let window_start := current_time - r.observation_window_days
  let window_end := current_time
  let points1 := fetch r.species1_id window_start window_end
  let points2 := fetch r.species2_id window_start window_end
  let kde1_result :=
    if 3 ≤ points1.length then
      calculate_kde lib core points1 none r.kde_level_percent r.kde_grid_size
    else none
  let kde2_result :=
    if 3 ≤ points2.length then
      calculate_kde lib core points2 none r.kde_level_percent r.kde_grid_size
    else none
  let overlap_stats :=
    match kde1_result, kde2_result with
    | some res1, some res2 =>
      calculate_overlap lib (some (lib.wkt res1.polygon_wkt))
        (some (lib.wkt res2.polygon_wkt))
    | _, _ => [(("intersection_area" : String), (0 : ℚ)), ("overlap_index", 0)]
  { time := current_time,
    overlap_area := (overlap_stats.lookup ("intersection_area")).getD 0,
    overlap_index := (overlap_stats.lookup ("overlap_index")).getD 0 }

/-- The `while current_time <= end_date` loop shared by both analysis
endpoints, with an explicit fuel so that the embedding is total: `none` means
the fuel ran out, i.e. the Python loop has not terminated within `fuel`
iterations.  Each iteration appends `stepf current_time` and advances
`current_time` by `time_step_days`. -/
def analysisWhileLoop {α : Type} (stepf : ℤ → α) (time_step_days endT : ℤ) :
    ℤ → ℕ → Option (List α)
  | _, 0 => none
  | t, Nat.succ fuel =>
    if t ≤ endT then
      match analysisWhileLoop stepf time_step_days endT (t + time_step_days) fuel with
      | none => none
      | some rest => some (stepf t :: rest)
    else some []

/-- The number of iterations the loop performs when it terminates:
`(end - start) / step + 1` for `start ≤ end` (integer division), else 0. -/
def trendStepCount (startT endT step : ℤ) : ℕ :=
  if startT ≤ endT then ((endT - startT) / step + 1).toNat else 0

/-- A FastAPI endpoint outcome: an `HTTPException` with its status code, or
the response value. -/
inductive EndpointResult (α : Type) where
  | httpError (code : ℕ)
  | ok (value : α)
deriving DecidableEq

/-- `get_overlap_trend` of `analysis.py`: 404 when either species is missing,
otherwise the while loop from `start_date` (fuel-instrumented; the Python
code has no other guard before the loop). -/
def get_overlap_trend {G : Type} (lib : GeomLib G) (core : KdeCore)
    (speciesFound : ℤ → Bool) (fetch : ℤ → ℤ → ℤ → List Pt)
    (r : AnalysisRequest) (fuel : ℕ) :
    EndpointResult (Option (List OverlapTrendPoint)) :=
  if speciesFound r.species1_id = true ∧ speciesFound r.species2_id = true then
    EndpointResult.ok
      (analysisWhileLoop (overlapTrendStep lib core fetch r) r.time_step_days
        r.end_date r.start_date fuel)
  else EndpointResult.httpError 404

/-- `schemas.SpeciesHabitatTimePoint`: one habitat-evolution entry. -/
structure SpeciesHabitatTimePoint (G : Type) where
  time : ℤ
  species_id : ℤ
  centroid : Option Pt
  kde_polygon : Option G
  observation_count : ℕ
deriving DecidableEq

/-- One iteration body of the `while` loop of `get_habitat_evolution`
(`analysis.py` lines 133-172): for each of the two species, the centroid of
its windowed points (when any) and its KDE polygon (when at least 3 points;
again no bandwidth is passed). -/
def habitatEvolutionStep {G : Type} (lib : GeomLib G) (core : KdeCore)
    (fetch : ℤ → ℤ → ℤ → List Pt) (r : AnalysisRequest) (current_time : ℤ) :
    List (SpeciesHabitatTimePoint G) :=
  [r.species1_id, r.species2_id].map (fun species_id =>
    let pts := fetch species_id (current_time - r.observation_window_days) current_time
    let centroidOpt := if 0 < pts.length then some (centroid pts) else none
    let kde_result :=
      if 3 ≤ pts.length then
        calculate_kde lib core pts none r.kde_level_percent r.kde_grid_size
      else none
    { time := current_time,
      species_id := species_id,
      centroid := centroidOpt,
      kde_polygon := kde_result.map (fun k => k.polygon_wkt),
      observation_count := pts.length })

/-- `get_habitat_evolution` of `analysis.py`: 404 when either species is
missing, otherwise the per-species points of every window, flattened in loop
order. -/
def get_habitat_evolution {G : Type} (lib : GeomLib G) (core : KdeCore)
    (speciesFound : ℤ → Bool) (fetch : ℤ → ℤ → ℤ → List Pt)
    (r : AnalysisRequest) (fuel : ℕ) :
    EndpointResult (Option (List (SpeciesHabitatTimePoint G))) :=
  if speciesFound r.species1_id = true ∧ speciesFound r.species2_id = true then
    EndpointResult.ok
      ((analysisWhileLoop (habitatEvolutionStep lib core fetch r) r.time_step_days
        r.end_date r.start_date fuel).map List.flatten)
  else EndpointResult.httpError 404

/-- Python runtime errors the habitat endpoints can raise. -/
inductive PyError where
  | typeError
  | keyError
deriving DecidableEq

/-- The parameter names of `def calculate_kde(points, h_degrees=None,
level_percent=90.0, grid_size=100)` (`spatial_analysis.py` lines 74-79). -/
def calculateKdeParameterNames : List String :=
  ["points", "h_degrees", "level_percent", "grid_size"]

/-- The keyword names both habitat endpoints pass to `calculate_kde`
(`habitats.py` lines 74-79 and 182-187). -/
def habitatsKdeCallKwargNames : List String :=
  ["h_meters", "level_percent", "grid_size"]

/-- Python keyword-argument binding: a call succeeds only when every keyword
names a declared parameter; otherwise the call raises
`TypeError: got an unexpected keyword argument`. -/
def pythonKwargsAccepted (parameterNames kwargNames : List String) : Bool :=
  kwargNames.all (fun k => parameterNames.contains k)

/-- The `calculate_kde(points, h_meters=..., level_percent=..., grid_size=...)`
call both habitat endpoints make: the keyword binding is checked against
`calculate_kde`'s signature before the body could run; `callResult` is the
value the body would return if binding succeeded. -/
def callKdeWithKeywords {R : Type} (kwargNames : List String)
    (callResult : Option R) : Except PyError (Option R) :=
  if pythonKwargsAccepted calculateKdeParameterNames kwargNames = true then
    Except.ok callResult
  else Except.error PyError.typeError

/-- The calculation `parameters` dict of
`schemas.HabitatAreaCalculationRequest`, modelled by the keys the habitat
endpoints read (`percentage` for MCP; `h_meters`, `level_percent`,
`grid_size` for KDE). -/
structure HabitatCalcParameters where
  percentage : Option ℚ
  h_meters : Option ℚ
  level_percent : Option ℚ
  grid_size : Option ℤ
deriving DecidableEq

/-- How the background save task `run_habitat_calculation` ends. -/
inductive BackgroundOutcome (G : Type) where
  | aborted
  | calcFailed
  | saved (polygon : G)
  | raised (e : PyError)
deriving DecidableEq

/-- `run_habitat_calculation` of `habitats.py` (lines 37-112), from the point
where the observation points have been extracted: abort on fewer than 3
points or an unknown method (the `method` argument models the already
lowercased `method.lower()` string); save the MCP polygon for
`method = "mcp"`; for `method = "kde"` the call uses the keyword `h_meters`, which
`calculate_kde` does not declare, so keyword binding raises before the
function body runs (there is no `try` around the call).  `calcFailed` is the
"Calculation failed (polygon_wkt is None)" early return. -/
def run_habitat_calculation {G : Type} (lib : GeomLib G) (core : KdeCore)
    (method : String) (points : List Pt) (params : HabitatCalcParameters) :
    BackgroundOutcome G :=
  if points.length < 3 then BackgroundOutcome.aborted
  else if method = "mcp" then
    match calculate_mcp lib points params.percentage with
    | some g => BackgroundOutcome.saved g
    | none => BackgroundOutcome.calcFailed
  else if method = "kde" then
    match
      callKdeWithKeywords habitatsKdeCallKwargNames
        (calculate_kde lib core points params.h_meters
          (some (params.level_percent.getD 90)) (some (params.grid_size.getD 100)))
    with
    | Except.error e => BackgroundOutcome.raised e
    | Except.ok (some r) => BackgroundOutcome.saved r.polygon_wkt
    | Except.ok none => BackgroundOutcome.calcFailed
  else BackgroundOutcome.aborted

/-- How the preview endpoint `preview_habitat_calculation` ends. -/
inductive PreviewOutcome (G : Type) where
  | httpError (code : ℕ)
  | previewed (polygon : Option G)
  | raised (e : PyError)
deriving DecidableEq

/-- `preview_habitat_calculation` of `habitats.py` (lines 140-218), from the
method check on (`method` again models `method.lower()`): 400 for an unknown
method or fewer than 3 valid points; the
MCP preview response carries the polygon when one was computed (`none`
otherwise); the KDE branch makes the same `h_meters=` keyword call as the
save task, with no `try` around it. -/
def preview_habitat_calculation {G : Type} (lib : GeomLib G) (core : KdeCore)
    (method : String) (points : List Pt) (params : HabitatCalcParameters) :
    PreviewOutcome G :=
  if ¬ (method = "mcp" ∨ method = "kde") then
    PreviewOutcome.httpError 400
  else if points.length < 3 then PreviewOutcome.httpError 400
  else if method = "mcp" then
    PreviewOutcome.previewed (calculate_mcp lib points params.percentage)
  else
    match
      callKdeWithKeywords habitatsKdeCallKwargNames
        (calculate_kde lib core points params.h_meters
          (some (params.level_percent.getD 90)) (some (params.grid_size.getD 100)))
    with
    | Except.error e => PreviewOutcome.raised e
    | Except.ok r => PreviewOutcome.previewed (r.map (fun out => out.polygon_wkt))

/-- The response model the overlap endpoint tries to build
(`habitats.py` lines 302-312): the keyword values it reads out of the
`calculate_overlap` result dict. -/
structure EndpointHabitatOverlapResult where
  intersection_area : ℚ
  union_area : ℚ
  jaccard_index : ℚ
  overlap_coeff_species1 : ℚ
  overlap_coeff_species2 : ℚ
deriving DecidableEq

/-- `calculate_habitat_overlap` of `habitats.py` (lines 241-312), from the
point where both saved WKT strings have been extracted: it calls
`calculate_overlap` and then indexes the result dict with the keys
`intersection_area_km2`, `union_area_km2`, `jaccard_index`,
`overlap_coeff_species1` and `overlap_coeff_species2` (in that evaluation
order); a missing key raises `KeyError`. -/
def calculate_habitat_overlap {G : Type} (lib : GeomLib G)
    (polygon1_wkt polygon2_wkt : String) :
    Except PyError EndpointHabitatOverlapResult :=
  let overlap_metrics := calculate_overlap lib (some polygon1_wkt) (some polygon2_wkt)
  match overlap_metrics.lookup ("intersection_area_km2") with
  | none => Except.error PyError.keyError
  | some ia =>
    match overlap_metrics.lookup ("union_area_km2") with
    | none => Except.error PyError.keyError
    | some ua =>
      match overlap_metrics.lookup ("jaccard_index") with
      | none => Except.error PyError.keyError
      | some ji =>
        match overlap_metrics.lookup ("overlap_coeff_species1") with
        | none => Except.error PyError.keyError
        | some c1 =>
          match overlap_metrics.lookup ("overlap_coeff_species2") with
          | none => Except.error PyError.keyError
          | some c2 => Except.ok ⟨ia, ua, ji, c1, c2⟩

/-- A concrete geometry representation for witnesses: either a degenerate
result (a `Point`/`LineString`, as Shapely's hull yields for collinear input)
or a polygon given by its vertex ring. -/
inductive SimpleGeom where
  | nonPoly
  | poly (vertices : List Pt)
deriving DecidableEq

/-- The 4x4 square of the spec's example scenario. -/
def sq4 : List Pt := [(0, 0), (4, 0), (4, 4), (0, 4)]

/-- The spec's example input: the 4x4 square plus its interior point. -/
def sq5 : List Pt := [(0, 0), (4, 0), (4, 4), (0, 4), (2, 2)]

/-- Area oracle for `SimpleGeom`: the 4x4 square has area 16, degenerate
geometries have area 0. -/
def toyArea : SimpleGeom → ℚ
  | SimpleGeom.nonPoly => 0
  | SimpleGeom.poly vs => if vs = sq4 then 16 else 0

/-- A hull oracle for witnesses: it recognizes the two concrete point lists
the witnesses use (both spanning the 4x4 square) and reports every other
input as degenerate. -/
def toyHull (pts : List Pt) : SimpleGeom :=
  if pts = sq4 ∨ pts = sq5 then SimpleGeom.poly sq4 else SimpleGeom.nonPoly

/-- Polygon test for `SimpleGeom`. -/
def toyIsPolygon : SimpleGeom → Bool
  | SimpleGeom.nonPoly => false
  | SimpleGeom.poly _ => true

/-- A union oracle for witnesses: the first geometry of the list (the union
of one polygon). -/
def toyUnionAll (gs : List SimpleGeom) : SimpleGeom :=
  gs.headD SimpleGeom.nonPoly

/-- A WKT parser for witnesses: it recognizes one fixed token. -/
def toyParse (s : String) : Option SimpleGeom :=
  if s = "POLYGON16" then some (SimpleGeom.poly sq4) else none

/-- The concrete `GeomLib` instance backing the witnesses. -/
def toyGeom : GeomLib SimpleGeom where
  convexHull := toyHull
  isPolygon := toyIsPolygon
  isSimple := toyIsPolygon
  isValid := toyIsPolygon
  area := toyArea
  mkPolygon := fun seg => if 3 ≤ seg.length then SimpleGeom.poly seg else SimpleGeom.nonPoly
  buffer0 := id
  unionAll := toyUnionAll
  isEmpty := fun g => ! toyIsPolygon g
  wkt := fun g => if g = SimpleGeom.poly sq4 then "POLYGON16" else "EMPTY"
  parseWKT := toyParse
  interArea := fun g1 g2 => if g1 = g2 then toyArea g1 else 0
  unionArea := fun g1 g2 => if g1 = g2 then toyArea g1 else toyArea g1 + toyArea g2
  sqrtQ := id

/-- A concrete numerical KDE core for witnesses: it raises (returns `none`)
exactly on degenerate inputs with fewer than 3 distinct points, as
`gaussian_kde` does on a singular covariance, and otherwise traces the 4x4
square as its single contour segment. -/
def toyCore : KdeCore :=
  fun ps _ _ _ =>
    if ps.dedup.length < 3 then none
    else some { segs := [sq4], gridSamples := [], maxDensity := 1 }

/-- A concrete analysis request for witnesses: the spec's example window
(2024-01-01 to 2024-01-31 as day ordinals 1 and 31, weekly step). -/
def exampleRequest : AnalysisRequest where
  species1_id := 1
  species2_id := 2
  start_date := 1
  end_date := 31
  time_step_days := 7
  observation_window_days := 30
  kde_h_meters := some 10000
  kde_level_percent := some 95
  kde_grid_size := some 100

/-- C10: the analysis endpoints never pass a bandwidth to `calculate_kde`
(its `h_degrees` stays `None`, i.e. Silverman's rule), so two requests that
differ only in the declared `kde_h_meters` field produce identical
overlap-trend and habitat-evolution outputs. -/
theorem kde_h_meters_has_no_effect {G : Type} (lib : GeomLib G) (core : KdeCore)
    (speciesFound : ℤ → Bool) (fetch : ℤ → ℤ → ℤ → List Pt)
    (r : AnalysisRequest) (h : Option ℚ) (fuel : ℕ) :
    get_overlap_trend lib core speciesFound fetch { r with kde_h_meters := h } fuel =
      get_overlap_trend lib core speciesFound fetch r fuel ∧
    get_habitat_evolution lib core speciesFound fetch { r with kde_h_meters := h } fuel =
      get_habitat_evolution lib core speciesFound fetch r fuel :=
  ⟨rfl, rfl⟩

/-- C1 (evidence): `calculate_overlap` returns a dict with exactly the keys
`intersection_area`, `union_area`, `overlap_index` — it computes no
directional overlap coefficients — while the overlap endpoint indexes the
dict with `intersection_area_km2` and the coefficient keys, so every call of
`calculate_habitat_overlap` on two saved WKT polygons raises `KeyError` and
the two `overlap_coefficient_i` values are never produced or reported. -/
theorem overlap_endpoint_raises_keyerror {G : Type} (lib : GeomLib G) (w1 w2 : String) :
    (calculate_overlap lib (some w1) (some w2)).map Prod.fst =
      ["intersection_area", "union_area", "overlap_index"] ∧
    (calculate_overlap lib (some w1) (some w2)).lookup ("overlap_coeff_species1") = none ∧
    (calculate_overlap lib (some w1) (some w2)).lookup ("overlap_coeff_species2") = none ∧
    calculate_habitat_overlap lib w1 w2 = Except.error PyError.keyError := by
  unfold calculate_habitat_overlap calculate_overlap zeroOverlapMetrics
  simp only [Option.some_bind]
  cases lib.parseWKT w1 <;> cases lib.parseWKT w2 <;> exact ⟨rfl, rfl, rfl, rfl⟩

/-- C8: when either input of `calculate_overlap` is missing (`None`) or its
WKT fails to parse, the function returns the all-zero metrics dict; the whole
body runs inside `try/except`, so no geometry exception propagates (the
embedding is a total function). -/
theorem calculate_overlap_invalid_inputs_zero {G : Type} (lib : GeomLib G)
    (h1 h2 : Option String)
    (hbad : h1.bind lib.parseWKT = none ∨ h2.bind lib.parseWKT = none) :
    calculate_overlap lib h1 h2 = zeroOverlapMetrics := by
  unfold calculate_overlap
  rcases hbad with hb | hb
  · rw [hb]
  · rw [hb]
    cases h1.bind lib.parseWKT <;> rfl

/-- C8 witness: an unparseable WKT string on the first input yields the
all-zero metrics dict. -/
theorem calculate_overlap_invalid_inputs_zero_witness :
    calculate_overlap toyGeom (some ("garbage")) (some ("POLYGON16")) =
      zeroOverlapMetrics :=
  calculate_overlap_invalid_inputs_zero toyGeom (some ("garbage"))
    (some ("POLYGON16")) (Or.inl (by decide))

/-- C2: with at least 3 valid points and method `kde`, both the background
save task and the preview endpoint call
`calculate_kde(points, h_meters=..., ...)`; `calculate_kde` declares
`h_degrees`, not `h_meters`, so keyword binding raises `TypeError` and no KDE
polygon is ever previewed or saved through these endpoints. -/
theorem habitat_kde_call_raises_typeerror {G : Type} (lib : GeomLib G)
    (core : KdeCore) (points : List Pt) (params : HabitatCalcParameters)
    (h3 : 3 ≤ points.length) :
    run_habitat_calculation lib core ("kde") points params =
      BackgroundOutcome.raised PyError.typeError ∧
    preview_habitat_calculation lib core ("kde") points params =
      PreviewOutcome.raised PyError.typeError := by
  have hlen : ¬ points.length < 3 := by omega
  have hmcp : ¬ (("kde" : String) = "mcp") := by decide
  have hkde : (("kde" : String) = "kde") := rfl
  have hbind : pythonKwargsAccepted calculateKdeParameterNames
      habitatsKdeCallKwargNames = false := by decide
  constructor
  · unfold run_habitat_calculation callKdeWithKeywords
    rw [if_neg hlen, if_neg hmcp, if_pos hkde, if_neg (by rw [hbind]; decide)]
  · unfold preview_habitat_calculation callKdeWithKeywords
    rw [if_neg (by rw [hkde]; decide), if_neg hlen, if_neg hmcp,
      if_neg (by rw [hbind]; decide)]

/-- C2 witness: the concrete instances at a 3-point input. -/
theorem habitat_kde_call_raises_typeerror_witness :
    run_habitat_calculation toyGeom toyCore ("kde")
        [(0, 0), (1, 0), (0, 1)] ⟨none, none, none, none⟩ =
      BackgroundOutcome.raised PyError.typeError ∧
    preview_habitat_calculation toyGeom toyCore ("kde")
        [(0, 0), (1, 0), (0, 1)] ⟨none, none, none, none⟩ =
      PreviewOutcome.raised PyError.typeError :=
  habitat_kde_call_raises_typeerror toyGeom toyCore
    [(0, 0), (1, 0), (0, 1)] ⟨none, none, none, none⟩ (by decide)

/-- C6: for at least 3 points and a percentage in `(0, 100]`, `calculate_mcp`
is exactly the spec's pipeline — centroid, per-point Euclidean distance in
degree space, `percentage`-th percentile threshold, discard of farther
points, no result when fewer than 3 points remain, else the convex hull of
the retained points (as a polygon). -/
theorem calculate_mcp_matches_spec_pipeline {G : Type} (lib : GeomLib G)
    (points : List Pt) (p : ℚ) (h3 : 3 ≤ points.length)
    (hp0 : 0 < p) (hp1 : p ≤ 100) :
    calculate_mcp lib points (some p) = mcpSpecPipeline lib points p := by
  unfold calculate_mcp mcpSpecPipeline
  rw [if_neg (by omega)]
  simp only [if_pos (And.intro hp0 hp1)]

/-- C6 witness: the pipeline equality at the spec's example square-plus-center
input with a 90 percent trim. -/
theorem calculate_mcp_matches_spec_pipeline_witness :
    calculate_mcp toyGeom sq5 (some 90) = mcpSpecPipeline toyGeom sq5 90 :=
  calculate_mcp_matches_spec_pipeline toyGeom sq5 90 (by decide) (by decide)
    (by decide)

/-- C3 (evidence of the code bug): `schemas.AnalysisRequest` carries no
validator, so every well-typed request — a non-positive `time_step_days` or
`start_date > end_date` included — is accepted; with `time_step_days ≤ 0` and
`start_date ≤ end_date` the endpoint's `while` loop never terminates (it
returns `none` for every finite fuel), and with `start_date > end_date` the
loop immediately returns the empty sequence instead of rejecting the
request.  Nothing is rejected before the loop. -/
theorem analysis_request_never_rejected_loop_diverges :
    (∀ r : AnalysisRequest, analysisRequestAccepted r = true) ∧
    (∀ (α : Type) (stepf : ℤ → α) (step endT t : ℤ) (fuel : ℕ),
      step ≤ 0 → t ≤ endT → analysisWhileLoop stepf step endT t fuel = none) ∧
    (∀ (α : Type) (stepf : ℤ → α) (step endT t : ℤ) (fuel : ℕ),
      endT < t → analysisWhileLoop stepf step endT t (fuel + 1) = some []) := by
  refine ⟨fun _ => rfl, ?_, ?_⟩
  · intro α stepf step endT t fuel hstep ht
    induction fuel generalizing t with
    | zero => rfl
    | succ n ih =>
      unfold analysisWhileLoop
      rw [if_pos ht, ih (t + step) (by omega)]
  · intro α stepf step endT t fuel h
    unfold analysisWhileLoop
    rw [if_neg (by omega)]

/-- C3 witness: the acceptance and both loop behaviours at concrete requests
(step 0 over the January window; start day 5 after end day 1). -/
theorem analysis_request_never_rejected_loop_diverges_witness :
    analysisRequestAccepted exampleRequest = true ∧
    analysisWhileLoop (fun t => t) 0 31 1 100 = none ∧
    analysisWhileLoop (fun t => t) 7 1 5 (99 + 1) = some [] :=
  ⟨analysis_request_never_rejected_loop_diverges.1 exampleRequest,
   analysis_request_never_rejected_loop_diverges.2.1 ℤ (fun t => t) 0 31 1 100
     (by decide) (by decide),
   analysis_request_never_rejected_loop_diverges.2.2 ℤ (fun t => t) 7 1 5 99
     (by decide)⟩

/-- C4 counterexample: an out-of-range parameter is neither rejected nor
surfaced distinctly.  `calculate_mcp` with `percentage = 150` silently falls
back to the untrimmed MCP and returns the same polygon as the default
computation; `calculate_kde` with the non-positive bandwidth 0 returns
`None`, the very value a data-sparsity failure (here: three coincident
points) produces. -/
theorem parameter_violation_not_distinct_counterexample :
    calculate_mcp toyGeom sq5 (some 150) = some (SimpleGeom.poly sq4) ∧
    calculate_mcp toyGeom sq5 (some 150) = calculate_mcp toyGeom sq5 none ∧
    calculate_kde toyGeom toyCore sq5 (some 0) (some 95) (some 100) = none ∧
    calculate_kde toyGeom toyCore [(0, 0), (0, 0), (0, 0)] none (some 95)
      (some 100) = none := by
  decide

/-- C4 amended: parameter checks do run before any computation, but an
out-of-range `percentage` makes `calculate_mcp` warn and fall back to the
full untrimmed MCP (a silent coercion to the default computation), and an
invalid bandwidth, `level_percent` or `grid_size` makes `calculate_kde`
return `None` — the same outcome as "no result"; neither function surfaces a
validation error distinct from the no-result outcome. -/
theorem parameter_violation_amended {G : Type} (lib : GeomLib G)
    (core : KdeCore) (points : List Pt) :
    (∀ p : ℚ, ¬ (0 < p ∧ p ≤ 100) →
      calculate_mcp lib points (some p) = calculate_mcp lib points none) ∧
    (∀ (h : ℚ) (lp : Option ℚ) (gs : Option ℤ), h ≤ 0 →
      calculate_kde lib core points (some h) lp gs = none) ∧
    (∀ (bw lp : Option ℚ) (gs : Option ℤ),
      (∀ v, lp = some v → ¬ (0 < v ∧ v ≤ 100)) →
      calculate_kde lib core points bw lp gs = none) ∧
    (∀ (bw lp : Option ℚ) (gs : ℤ), gs ≤ 1 →
      calculate_kde lib core points bw lp (some gs) = none) := by
  have hlevel : ∀ (bw lp : Option ℚ) (gs : Option ℤ),
      (∀ v, lp = some v → ¬ (0 < v ∧ v ≤ 100)) →
      kdeAfterBandwidth lib core points bw lp gs = none := by
    intro bw lp gs hlp
    cases lp with
    | none => rfl
    | some v =>
      simp only [kdeAfterBandwidth]
      rw [if_pos (hlp v rfl)]
  have hgrid : ∀ (bw lp : Option ℚ) (gs : ℤ), gs ≤ 1 →
      kdeAfterBandwidth lib core points bw lp (some gs) = none := by
    intro bw lp gs hgs
    cases lp with
    | none => rfl
    | some v =>
      simp only [kdeAfterBandwidth]
      by_cases hv : 0 < v ∧ v ≤ 100
      · rw [if_neg (fun hc => hc hv), if_pos (by omega)]
      · rw [if_pos hv]
  refine ⟨?_, ?_, ?_, ?_⟩
  · intro p hp
    unfold calculate_mcp
    by_cases hlen : points.length < 3
    · rw [if_pos hlen, if_pos hlen]
    · rw [if_neg hlen, if_neg hlen]
      simp only [if_neg hp]
  · intro h lp gs hh
    unfold calculate_kde
    by_cases hlen : points.length < 3
    · rw [if_pos hlen]
    · rw [if_neg hlen]
      simp only [if_pos hh]
  · intro bw lp gs hlp
    unfold calculate_kde
    by_cases hlen : points.length < 3
    · rw [if_pos hlen]
    · rw [if_neg hlen]
      cases bw with
      | none => exact hlevel none lp gs hlp
      | some h =>
        by_cases hh : h ≤ 0
        · simp only [if_pos hh]
        · simp only [if_neg hh]
          exact hlevel (some h) lp gs hlp
  · intro bw lp gs hgs
    unfold calculate_kde
    by_cases hlen : points.length < 3
    · rw [if_pos hlen]
    · rw [if_neg hlen]
      cases bw with
      | none => exact hgrid none lp gs hgs
      | some h =>
        by_cases hh : h ≤ 0
        · simp only [if_pos hh]
        · simp only [if_neg hh]
          exact hgrid (some h) lp gs hgs

/-- C4 amended witness: the fallback and the `None` outcomes at concrete
out-of-range parameters. -/
theorem parameter_violation_amended_witness :
    calculate_mcp toyGeom sq5 (some 150) = calculate_mcp toyGeom sq5 none ∧
    calculate_kde toyGeom toyCore sq5 (some 0) (some 95) (some 100) = none ∧
    calculate_kde toyGeom toyCore sq5 none (some 101) (some 100) = none ∧
    calculate_kde toyGeom toyCore sq5 none (some 95) (some 1) = none :=
  ⟨(parameter_violation_amended toyGeom toyCore sq5).1 150 (by decide),
   (parameter_violation_amended toyGeom toyCore sq5).2.1 0 (some 95) (some 100)
     (by decide),
   (parameter_violation_amended toyGeom toyCore sq5).2.2.1 none (some 101)
     (some 100) (fun v hv => by injection hv with h; subst h; decide),
   (parameter_violation_amended toyGeom toyCore sq5).2.2.2 none (some 95) 1
     (by decide)⟩

/-- In a list sorted ascending, every element is at most the last entry. -/
theorem sorted_le_getD_last (l : List ℚ) (hs : l.Sorted (fun a b => a ≤ b)) :
    ∀ x ∈ l, x ≤ l.getD (l.length - 1) 0 := by
  induction l with
  | nil => intro x hx; cases hx
  | cons a t ih =>
    rw [List.sorted_cons] at hs
    intro x hx
    cases t with
    | nil =>
      rcases List.mem_cons.mp hx with rfl | hxt
      · simp [List.getD]
      · cases hxt
    | cons b t2 =>
      have hidx : (b :: t2).length - 1 < (b :: t2).length := by simp
      have hmem : (b :: t2).getD ((b :: t2).length - 1) 0 ∈ (b :: t2) := by
        rw [List.getD_eq_getElem _ _ hidx]
        exact List.getElem_mem hidx
      have heq : (a :: b :: t2).getD ((a :: b :: t2).length - 1) 0 =
          (b :: t2).getD ((b :: t2).length - 1) 0 := by
        simp [List.getD_cons_succ]
      rcases List.mem_cons.mp hx with rfl | hxt
      · rw [heq]
        exact hs.1 _ hmem
      · rw [heq]
        exact ih hs.2 x hxt

/-- `numpy.percentile(xs, 100)` is the maximum of a nonempty list: the
interpolation index `(n - 1) * 100 / 100` is exactly the last rank. -/
theorem percentile_100_is_max (xs : List ℚ) (hx : xs ≠ []) :
    ∀ x ∈ xs, x ≤ percentile xs 100 := by
  intro x hxm
  have hperm := List.perm_insertionSort (fun a b : ℚ => a ≤ b) xs
  have hlen : (xs.insertionSort (fun a b => a ≤ b)).length = xs.length :=
    hperm.length_eq
  have hsorted := List.sorted_insertionSort (fun a b : ℚ => a ≤ b) xs
  have hn : 1 ≤ xs.length := List.length_pos.mpr hx
  simp only [percentile]
  rw [show ((xs.length : ℚ) - 1) * 100 / 100 = (((xs.length : ℤ) - 1 : ℤ) : ℚ) by
    push_cast
    ring]
  rw [Int.floor_intCast, sub_self, zero_mul, add_zero]
  rw [show ((xs.length : ℤ) - 1).toNat = xs.length - 1 by omega]
  rw [← hlen]
  exact sorted_le_getD_last _ hsorted x (hperm.mem_iff.mpr hxm)

/-- C9: trimming at the 100th percentile retains every point, so
`calculate_mcp` with `percentage = 100` returns exactly what the untrimmed
call returns (the same polygon whenever the hull is non-degenerate). -/
theorem trimmed_mcp_100_eq_untrimmed {G : Type} (lib : GeomLib G)
    (points : List Pt) (h3 : 3 ≤ points.length) :
    calculate_mcp lib points (some 100) = calculate_mcp lib points none := by
  have hne : points ≠ [] := by
    intro h
    rw [h] at h3
    simp at h3
  have hmapne : points.map
      (fun q => lib.sqrtQ (sqDistance q (centroid points))) ≠ [] := by
    simp [hne]
  have hfilter : mcpRetainedPoints lib points 100 = points := by
    unfold mcpRetainedPoints
    apply List.filter_eq_self.mpr
    intro q hq
    rw [decide_eq_true_eq]
    exact percentile_100_is_max _ hmapne _ (List.mem_map_of_mem _ hq)
  unfold calculate_mcp
  rw [if_neg (by omega)]
  simp only [if_pos (by norm_num : (0 : ℚ) < 100 ∧ (100 : ℚ) ≤ 100), hfilter]

/-- C9 witness: the equality at the spec's example square-plus-center input. -/
theorem trimmed_mcp_100_eq_untrimmed_witness :
    calculate_mcp toyGeom sq5 (some 100) = calculate_mcp toyGeom sq5 none :=
  trimmed_mcp_100_eq_untrimmed toyGeom sq5 (by decide)

/-- One loop iteration consumes exactly one step of the count. -/
theorem trendStepCount_succ (t endT step : ℤ) (hstep : 0 < step) (ht : t ≤ endT) :
    trendStepCount t endT step = trendStepCount (t + step) endT step + 1 := by
  unfold trendStepCount
  rw [if_pos ht]
  by_cases h2 : t + step ≤ endT
  · rw [if_pos h2]
    have key : (endT - t) / step = (endT - (t + step)) / step + 1 := by
      have harg : endT - t = (endT - (t + step)) + 1 * step := by ring
      rw [harg, Int.add_mul_ediv_right _ _ (ne_of_gt hstep)]
    have hnn : 0 ≤ (endT - (t + step)) / step :=
      Int.ediv_nonneg (by omega) (le_of_lt hstep)
    omega
  · rw [if_neg h2]
    have h0 : (endT - t) / step = 0 := Int.ediv_eq_zero_of_lt (by omega) (by omega)
    omega

/-- With a positive step and enough fuel, the while loop terminates and
returns exactly one entry per time `t, t + step, t + 2 step, ...` while the
time stays at most `endT`. -/
theorem analysisWhileLoop_eq {α : Type} (stepf : ℤ → α) (step endT : ℤ)
    (hstep : 0 < step) :
    ∀ (fuel : ℕ) (t : ℤ), trendStepCount t endT step < fuel →
      analysisWhileLoop stepf step endT t fuel =
        some ((List.range (trendStepCount t endT step)).map
          (fun k : ℕ => stepf (t + (k : ℤ) * step))) := by
  intro fuel
  induction fuel with
  | zero => intro t h; omega
  | succ n ih =>
    intro t h
    by_cases ht : t ≤ endT
    · have hsucc := trendStepCount_succ t endT step hstep ht
      unfold analysisWhileLoop
      rw [if_pos ht, ih (t + step) (by omega)]
      rw [hsucc, List.range_succ_eq_map]
      simp only [List.map_cons, List.map_map]
      simp only [Nat.cast_zero, zero_mul, add_zero]
      refine congrArg some (congrArg (List.cons (stepf t)) ?_)
      refine List.map_congr_left ?_
      intro k _
      simp only [Function.comp_apply]
      refine congrArg stepf ?_
      push_cast
      ring
    · have hz : trendStepCount t endT step = 0 := by
        unfold trendStepCount
        rw [if_neg ht]
      unfold analysisWhileLoop
      rw [if_neg ht, hz]
      rfl

/-- C7: with species present, a positive `time_step_days`, `start_date ≤
end_date` and enough fuel, `get_overlap_trend` terminates with exactly one
trend point per time `start_date + k * time_step_days` while that time is at
most `end_date`: the times are `start + k * step` for
`k < (end - start) / step + 1`, the length equals that bound, and the
sequence is strictly increasing in time. -/
theorem overlap_trend_emits_one_point_per_step {G : Type} (lib : GeomLib G)
    (core : KdeCore) (speciesFound : ℤ → Bool) (fetch : ℤ → ℤ → ℤ → List Pt)
    (r : AnalysisRequest) (fuel : ℕ)
    (hs1 : speciesFound r.species1_id = true)
    (hs2 : speciesFound r.species2_id = true)
    (hstep : 0 < r.time_step_days)
    (hdates : r.start_date ≤ r.end_date)
    (hfuel : ((r.end_date - r.start_date) / r.time_step_days + 1).toNat < fuel) :
    ∃ l : List OverlapTrendPoint,
      get_overlap_trend lib core speciesFound fetch r fuel =
        EndpointResult.ok (some l) ∧
      l.map (fun pt => pt.time) =
        (List.range (((r.end_date - r.start_date) / r.time_step_days + 1).toNat)).map
          (fun k : ℕ => r.start_date + (k : ℤ) * r.time_step_days) ∧
      l.length = ((r.end_date - r.start_date) / r.time_step_days + 1).toNat ∧
      List.Pairwise (fun a b => a < b) (l.map (fun pt => pt.time)) := by
  have hcount : trendStepCount r.start_date r.end_date r.time_step_days =
      ((r.end_date - r.start_date) / r.time_step_days + 1).toNat := by
    unfold trendStepCount
    rw [if_pos hdates]
  have hloop := analysisWhileLoop_eq (overlapTrendStep lib core fetch r)
    r.time_step_days r.end_date hstep fuel r.start_date (by omega)
  refine ⟨(List.range (((r.end_date - r.start_date) / r.time_step_days + 1).toNat)).map
      (fun k : ℕ => overlapTrendStep lib core fetch r
        (r.start_date + (k : ℤ) * r.time_step_days)), ?_, ?_, ?_, ?_⟩
  · unfold get_overlap_trend
    rw [if_pos (And.intro hs1 hs2), hloop, hcount]
  · rw [List.map_map]
    rfl
  · simp
  · rw [List.map_map]
    have hshape : (List.map
        ((fun pt => OverlapTrendPoint.time pt) ∘ fun k : ℕ =>
          overlapTrendStep lib core fetch r
            (r.start_date + (k : ℤ) * r.time_step_days))
        (List.range (((r.end_date - r.start_date) / r.time_step_days + 1).toNat))) =
        (List.range (((r.end_date - r.start_date) / r.time_step_days + 1).toNat)).map
          (fun k : ℕ => r.start_date + (k : ℤ) * r.time_step_days) := rfl
    rw [hshape, List.pairwise_map]
    refine (List.pairwise_lt_range _).imp ?_
    intro a b hab
    have : (a : ℤ) < (b : ℤ) := by exact_mod_cast hab
    nlinarith

/-- C7 witness: over 2024-01-01 .. 2024-01-31 (day ordinals 1 and 31) with a
7-day step the endpoint emits exactly the 5 strictly increasing times 1, 8,
15, 22, 29. -/
theorem overlap_trend_emits_one_point_per_step_witness :
    ∃ l : List OverlapTrendPoint,
      get_overlap_trend toyGeom toyCore (fun _ => true) (fun _ _ _ => [])
          exampleRequest 6 = EndpointResult.ok (some l) ∧
      l.map (fun pt => pt.time) = [1, 8, 15, 22, 29] ∧
      l.length = 5 ∧
      List.Pairwise (fun a b => a < b) (l.map (fun pt => pt.time)) := by
  obtain ⟨l, h1, h2, h3, h4⟩ :=
    overlap_trend_emits_one_point_per_step toyGeom toyCore (fun _ => true)
      (fun _ _ _ => []) exampleRequest 6 rfl rfl (by decide) (by decide) (by decide)
  exact ⟨l, h1, h2.trans (by decide), h3.trans (by decide), h4⟩

/-- A successful `hullPolygon` result is the convex hull, recognized as a
polygon. -/
theorem hullPolygon_some {G : Type} (lib : GeomLib G) (ps : List Pt) (g : G)
    (h : hullPolygon lib ps = some g) :
    lib.isPolygon g = true ∧ g = lib.convexHull ps := by
  simp only [hullPolygon] at h
  split at h
  · injection h with h2
    subst h2
    exact ⟨by assumption, rfl⟩
  · exact absurd h (by simp)

/-- Fewer distinct elements in a sub-collection: dedup length is monotone
under list inclusion. -/
theorem dedup_length_le_of_subset (l1 l2 : List Pt) (h : l1 ⊆ l2) :
    l1.dedup.length ≤ l2.dedup.length := by
  rw [← List.card_toFinset, ← List.card_toFinset]
  apply Finset.card_le_card
  intro x hx
  rw [List.mem_toFinset] at hx ⊢
  exact h hx

/-- The trimmed point set is a subset of the input points. -/
theorem mcpRetainedPoints_subset {G : Type} (lib : GeomLib G) (points : List Pt)
    (p : ℚ) : mcpRetainedPoints lib points p ⊆ points := by
  unfold mcpRetainedPoints
  exact (List.filter_sublist points).subset

/-- Every polygon that survives the contour-segment filter of
`calculate_kde` is valid and has area above the `1e-9` threshold. -/
theorem mem_validPolygons {G : Type} (lib : GeomLib G) (segs : List (List Pt))
    (g : G) (hg : g ∈ validPolygonsOfSegments lib segs) :
    lib.isValid g = true ∧ (1 : ℚ) / 1000000000 < lib.area g := by
  rcases List.mem_filterMap.mp hg with ⟨seg, _, hseg⟩
  simp only [processContourSegment] at hseg
  split at hseg
  · exact absurd hseg (by simp)
  · split at hseg
    · split at hseg
      · injection hseg with h2
        subst h2
        exact ⟨by assumption, by assumption⟩
      · exact absurd hseg (by simp)
    · split at hseg
      · injection hseg with h2
        subst h2
        rename_i hconj
        exact ⟨hconj.1, hconj.2⟩
      · exact absurd hseg (by simp)

/-- A successful numerical pipeline run returns the union of a nonempty list
of valid, above-threshold polygons; under the union axioms the result is
valid with strictly positive area. -/
theorem kdeNumericalPipeline_some {G : Type} (lib : GeomLib G) (core : KdeCore)
    (points : List Pt) (bw : Option ℚ) (lp : ℚ) (gs : ℤ) (res : KdeResult G)
    (unionValid : ∀ l : List G, l ≠ [] → (∀ g ∈ l, lib.isValid g = true) →
      lib.isValid (lib.unionAll l) = true)
    (unionPos : ∀ l : List G, l ≠ [] →
      (∀ g ∈ l, (1 : ℚ) / 1000000000 < lib.area g) → 0 < lib.area (lib.unionAll l))
    (hres : kdeNumericalPipeline lib core points bw lp gs = some res) :
    lib.isValid res.polygon_wkt = true ∧ 0 < lib.area res.polygon_wkt := by
  unfold kdeNumericalPipeline at hres
  cases hcore : core points bw lp gs with
  | none =>
    rw [hcore] at hres
    exact absurd hres (by simp)
  | some out =>
    rw [hcore] at hres
    simp only at hres
    split at hres
    · exact absurd hres (by simp)
    · split at hres
      · exact absurd hres (by simp)
      · rename_i hvalid
        split at hres
        · exact absurd hres (by simp)
        · have hne : validPolygonsOfSegments lib out.segs ≠ [] := by
            intro hnil
            rw [hnil] at hvalid
            simp at hvalid
          have hpoly : res.polygon_wkt =
              lib.unionAll (validPolygonsOfSegments lib out.segs) := by
            injection hres with h2
            rw [← h2]
          rw [hpoly]
          constructor
          · exact unionValid _ hne
              (fun g hg => (mem_validPolygons lib out.segs g hg).1)
          · refine unionPos _ hne
              (fun g hg => (mem_validPolygons lib out.segs g hg).2)

/-- When the numerical core raises on every argument (degenerate input),
`kdeAfterBandwidth` returns `None` whatever the remaining parameters are. -/
theorem kdeAfterBandwidth_none_of_core {G : Type} (lib : GeomLib G)
    (core : KdeCore) (points : List Pt)
    (hcore : ∀ (bw : Option ℚ) (lp : ℚ) (gs : ℤ), core points bw lp gs = none) :
    ∀ (bw : Option ℚ) (lp : Option ℚ) (gs : Option ℤ),
      kdeAfterBandwidth lib core points bw lp gs = none := by
  intro bw lp gs
  cases lp with
  | none => rfl
  | some v =>
    simp only [kdeAfterBandwidth]
    split
    · rfl
    · cases gs with
      | none => rfl
      | some gsv =>
        show (if ¬ (1 < gsv) then none
          else kdeNumericalPipeline lib core points bw v gsv) = none
        split
        · rfl
        · unfold kdeNumericalPipeline
          rw [hcore bw v gsv]

/-- A successful `kdeAfterBandwidth` comes from a successful numerical
pipeline run at validated parameters. -/
theorem kdeAfterBandwidth_some_pipeline {G : Type} (lib : GeomLib G)
    (core : KdeCore) (points : List Pt) (bw : Option ℚ) (lp : Option ℚ)
    (gs : Option ℤ) (res : KdeResult G)
    (hres : kdeAfterBandwidth lib core points bw lp gs = some res) :
    ∃ (lpv : ℚ) (gsv : ℤ),
      kdeNumericalPipeline lib core points bw lpv gsv = some res := by
  cases lp with
  | none => exact Option.noConfusion hres
  | some v =>
    simp only [kdeAfterBandwidth] at hres
    split at hres
    · exact absurd hres (by simp)
    · cases gs with
      | none => exact Option.noConfusion hres
      | some gsv =>
        have hres2 : (if ¬ (1 < gsv) then none
            else kdeNumericalPipeline lib core points bw v gsv) = some res := hres
        split at hres2
        · exact absurd hres2 (by simp)
        · exact ⟨v, gsv, hres2⟩

/-- A successful `calculate_kde` comes from a successful numerical pipeline
run. -/
theorem calculate_kde_some_pipeline {G : Type} (lib : GeomLib G)
    (core : KdeCore) (points : List Pt) (h lp : Option ℚ) (gs : Option ℤ)
    (res : KdeResult G)
    (hres : calculate_kde lib core points h lp gs = some res) :
    ∃ (bw : Option ℚ) (lpv : ℚ) (gsv : ℤ),
      kdeNumericalPipeline lib core points bw lpv gsv = some res := by
  cases h with
  | none =>
    simp only [calculate_kde] at hres
    split at hres
    · exact absurd hres (by simp)
    · rcases kdeAfterBandwidth_some_pipeline lib core points none lp gs res hres
        with ⟨lpv, gsv, hp⟩
      exact ⟨none, lpv, gsv, hp⟩
  | some hv =>
    simp only [calculate_kde] at hres
    split at hres
    · exact absurd hres (by simp)
    · split at hres
      · exact absurd hres (by simp)
      · rcases kdeAfterBandwidth_some_pipeline lib core points (some hv) lp gs res
          hres with ⟨lpv, gsv, hp⟩
        exact ⟨some hv, lpv, gsv, hp⟩

/-- C5: `calculate_mcp` and `calculate_kde` never surface a degenerate
geometry: a returned MCP polygon is a simple polygon of strictly positive
area, a returned KDE geometry is valid with strictly positive area (the
union of simple above-threshold polygons), and an input with fewer than 3
distinct points yields `none` from both — never an exception (both
embeddings are total functions: `calculate_kde`'s body runs inside
`try/except` and `calculate_mcp` only catches its own parameter errors).
The hypotheses are the Shapely/SciPy facts used: a hull that is a `Polygon`
instance is simple with positive area; a hull of fewer than 3 distinct
points is not a `Polygon`; `unary_union` of a nonempty list of valid
above-threshold polygons is valid with positive area; `gaussian_kde` raises
on fewer than 3 distinct points (singular covariance). -/
theorem mcp_kde_results_nondegenerate {G : Type} (lib : GeomLib G)
    (core : KdeCore)
    (hullSound : ∀ ps : List Pt, lib.isPolygon (lib.convexHull ps) = true →
      lib.isSimple (lib.convexHull ps) = true ∧ 0 < lib.area (lib.convexHull ps))
    (hullDegenerate : ∀ ps : List Pt, ps.dedup.length < 3 →
      lib.isPolygon (lib.convexHull ps) = false)
    (unionValid : ∀ l : List G, l ≠ [] → (∀ g ∈ l, lib.isValid g = true) →
      lib.isValid (lib.unionAll l) = true)
    (unionPos : ∀ l : List G, l ≠ [] →
      (∀ g ∈ l, (1 : ℚ) / 1000000000 < lib.area g) →
      0 < lib.area (lib.unionAll l))
    (coreDegenerate : ∀ (ps : List Pt) (bw : Option ℚ) (lp : ℚ) (gs : ℤ),
      ps.dedup.length < 3 → core ps bw lp gs = none) :
    (∀ (points : List Pt) (perc : Option ℚ) (g : G),
      calculate_mcp lib points perc = some g →
      lib.isPolygon g = true ∧ lib.isSimple g = true ∧ 0 < lib.area g) ∧
    (∀ (points : List Pt) (perc : Option ℚ),
      points.dedup.length < 3 → calculate_mcp lib points perc = none) ∧
    (∀ (points : List Pt) (h lp : Option ℚ) (gs : Option ℤ) (res : KdeResult G),
      calculate_kde lib core points h lp gs = some res →
      lib.isValid res.polygon_wkt = true ∧ 0 < lib.area res.polygon_wkt) ∧
    (∀ (points : List Pt) (h lp : Option ℚ) (gs : Option ℤ),
      points.dedup.length < 3 → calculate_kde lib core points h lp gs = none) := by
  have hullCase : ∀ (ps : List Pt) (g : G), hullPolygon lib ps = some g →
      lib.isPolygon g = true ∧ lib.isSimple g = true ∧ 0 < lib.area g := by
    intro ps g hg
    rcases hullPolygon_some lib ps g hg with ⟨hp, hgeq⟩
    subst hgeq
    rcases hullSound ps hp with ⟨hs, ha⟩
    exact ⟨hp, hs, ha⟩
  have hullNone : ∀ ps : List Pt, ps.dedup.length < 3 →
      hullPolygon lib ps = none := by
    intro ps hdd
    simp only [hullPolygon]
    rw [if_neg (by rw [hullDegenerate ps hdd]; simp)]
  refine ⟨?_, ?_, ?_, ?_⟩
  · intro points perc g hg
    cases perc with
    | none =>
      simp only [calculate_mcp] at hg
      split at hg
      · exact absurd hg (by simp)
      · exact hullCase points g hg
    | some p =>
      simp only [calculate_mcp] at hg
      split at hg
      · exact absurd hg (by simp)
      · split at hg
        · split at hg
          · exact absurd hg (by simp)
          · exact hullCase _ g hg
        · exact hullCase points g hg
  · intro points perc hdd
    cases perc with
    | none =>
      simp only [calculate_mcp]
      split
      · rfl
      · exact hullNone points hdd
    | some p =>
      simp only [calculate_mcp]
      split
      · rfl
      · split
        · split
          · rfl
          · refine hullNone _ (by
              have hsub := mcpRetainedPoints_subset lib points p
              have := dedup_length_le_of_subset _ _ hsub
              omega)
        · exact hullNone points hdd
  · intro points h lp gs res hres
    rcases calculate_kde_some_pipeline lib core points h lp gs res hres
      with ⟨bw, lpv, gsv, hp⟩
    exact kdeNumericalPipeline_some lib core points bw lpv gsv res unionValid
      unionPos hp
  · intro points h lp gs hdd
    have hcore : ∀ (bw : Option ℚ) (lpv : ℚ) (gsv : ℤ),
        core points bw lpv gsv = none :=
      fun bw lpv gsv => coreDegenerate points bw lpv gsv hdd
    cases h with
    | none =>
      simp only [calculate_kde]
      split
      · rfl
      · exact kdeAfterBandwidth_none_of_core lib core points hcore none lp gs
    | some hv =>
      simp only [calculate_kde]
      split
      · rfl
      · split
        · rfl
        · exact kdeAfterBandwidth_none_of_core lib core points hcore (some hv) lp gs

/-- The toy hull yields only simple polygons of positive area. -/
theorem toyHullSound (ps : List Pt)
    (h : toyGeom.isPolygon (toyGeom.convexHull ps) = true) :
    toyGeom.isSimple (toyGeom.convexHull ps) = true ∧
    0 < toyGeom.area (toyGeom.convexHull ps) := by
  have h2 : toyIsPolygon (toyHull ps) = true := h
  by_cases hc : ps = sq4 ∨ ps = sq5
  · have he : toyHull ps = SimpleGeom.poly sq4 := by
      unfold toyHull
      rw [if_pos hc]
    show toyIsPolygon (toyHull ps) = true ∧ 0 < toyArea (toyHull ps)
    rw [he]
    exact ⟨rfl, by decide⟩
  · have he : toyHull ps = SimpleGeom.nonPoly := by
      unfold toyHull
      rw [if_neg hc]
    rw [he] at h2
    exact absurd h2 (by decide)

/-- The toy hull reports degenerate point sets as non-polygons. -/
theorem toyHullDegenerate (ps : List Pt) (hdd : ps.dedup.length < 3) :
    toyGeom.isPolygon (toyGeom.convexHull ps) = false := by
  show toyIsPolygon (toyHull ps) = false
  by_cases hc : ps = sq4 ∨ ps = sq5
  · rcases hc with rfl | rfl
    · exact absurd hdd (by decide)
    · exact absurd hdd (by decide)
  · unfold toyHull
    rw [if_neg hc]
    rfl

/-- The toy union of a nonempty list of valid geometries is valid. -/
theorem toyUnionValid (l : List SimpleGeom) (hne : l ≠ [])
    (hv : ∀ g ∈ l, toyGeom.isValid g = true) :
    toyGeom.isValid (toyGeom.unionAll l) = true := by
  cases l with
  | nil => exact absurd rfl hne
  | cons g t => exact hv g (List.mem_cons_self g t)

/-- The toy union of a nonempty list of above-threshold geometries has
positive area. -/
theorem toyUnionPos (l : List SimpleGeom) (hne : l ≠ [])
    (hv : ∀ g ∈ l, (1 : ℚ) / 1000000000 < toyGeom.area g) :
    0 < toyGeom.area (toyGeom.unionAll l) := by
  cases l with
  | nil => exact absurd rfl hne
  | cons g t =>
    have := hv g (List.mem_cons_self g t)
    have hpos : (0 : ℚ) < 1 / 1000000000 := by norm_num
    calc (0 : ℚ) < 1 / 1000000000 := hpos
      _ < toyGeom.area (toyGeom.unionAll (g :: t)) := this

/-- The toy core raises exactly on degenerate inputs. -/
theorem toyCoreDegenerate (ps : List Pt) (bw : Option ℚ) (lp : ℚ) (gs : ℤ)
    (hdd : ps.dedup.length < 3) : toyCore ps bw lp gs = none := by
  unfold toyCore
  rw [if_pos hdd]

/-- C5 witness: the MCP result at the example input is a simple polygon of
positive area, and three coincident points yield no KDE result. -/
theorem mcp_kde_results_nondegenerate_witness :
    (toyGeom.isPolygon (SimpleGeom.poly sq4) = true ∧
     toyGeom.isSimple (SimpleGeom.poly sq4) = true ∧
     0 < toyGeom.area (SimpleGeom.poly sq4)) ∧
    calculate_kde toyGeom toyCore [(1, 1), (1, 1), (1, 1)] none (some 95)
      (some 100) = none :=
  ⟨(mcp_kde_results_nondegenerate toyGeom toyCore toyHullSound toyHullDegenerate
      toyUnionValid toyUnionPos toyCoreDegenerate).1 sq5 none
      (SimpleGeom.poly sq4) (by decide),
   (mcp_kde_results_nondegenerate toyGeom toyCore toyHullSound toyHullDegenerate
      toyUnionValid toyUnionPos toyCoreDegenerate).2.2.2
      [(1, 1), (1, 1), (1, 1)] none (some 95) (some 100) (by decide)⟩
